import Mathlib

/-!
Verification of the nokode LLM-gateway server (Go) against its specification.

The development shallowly embeds the parts of the source that the claims
touch:

* `internal/tools/web_response.go` — `CreateWebResponse`;
* `internal/tools/database.go` — `ExecuteDatabaseQuery` (branch structure
  and the data passed to the database driver, which is modelled as an
  explicit `DbEngine` record of functions);
* the memory tool `UpdateMemory` (file contents passed explicitly);
* the handler package (second copy in the source, the one the claims
  cite): `doAPIRequestWithRetry`, `HandleLLMRequest`'s response writing,
  `executeToolCall`, `extractWebResponse`, the tool-call round of
  `processToolCallsAnthropic`, `generateFallbackPoemPage`, and the
  rate-limiting preamble shared by all provider calls;
* the gin-based middleware variant of `HandleLLMRequest` (its fallback
  branch).

External effects (database driver, file system, HTTP, JSON decoding of
model output) are passed in as explicit values or functions, so every
definition is executable.
-/

/-- Go `interface{}` values as produced by `encoding/json.Unmarshal`. -/
inductive GoVal where
  | str (s : String)
  | num (n : Int)
  | boolean (b : Bool)
  | arr (xs : List GoVal)
  | obj (fields : List (String × GoVal))
  | null

/-- Association-list lookup, mirroring Go map indexing `m[k]`. -/
def lookupGo (fields : List (String × GoVal)) (k : String) : Option GoVal :=
  (fields.find? (fun p => p.1 == k)).map (·.2)

/-- Model of `args[k].(string)` with Go's zero value `""` on failure. -/
def getStr (fields : List (String × GoVal)) (k : String) : String :=
  match lookupGo fields k with
  | some (.str s) => s
  | _ => ""

/-- Model of `args[k].(float64)` converted with `int(...)`, with a default. -/
def getNumD (fields : List (String × GoVal)) (k : String) (d : Int) : Int :=
  match lookupGo fields k with
  | some (.num n) => n
  | _ => d

/-- Model of `args[k].(string)` with a default when the assertion fails. -/
def getStrD (fields : List (String × GoVal)) (k : String) (d : String) : String :=
  match lookupGo fields k with
  | some (.str s) => s
  | _ => d

/-- Model of `args[k].([]interface\x7b\x7d)` with Go's zero value `nil` on failure. -/
def getArr (fields : List (String × GoVal)) (k : String) : List GoVal :=
  match lookupGo fields k with
  | some (.arr xs) => xs
  | _ => []

/-- Model of `tools.WebResponse` (internal/tools/web_response.go). -/
structure WebResponse where
  statusCode : Int
  contentType : String
  body : String
  headers : List (String × String)
deriving Repr, DecidableEq

/-- Model of `tools.CreateWebResponse` (internal/tools/web_response.go:10-26):
fold a non-empty contentType into the headers map, default status 200. -/
def createWebResponse (statusCode : Int) (contentType body : String) : WebResponse :=
  let headers : List (String × String) :=
    if contentType != "" then [("Content-Type", contentType)] else []
  let statusCode := if statusCode == 0 then 200 else statusCode
  { statusCode := statusCode, contentType := contentType, body := body, headers := headers }

/-- Model of `tools.MemoryResult` (memory tool source). -/
structure MemoryResult where
  success : Bool
  message : String
deriving Repr, DecidableEq

/-- Model of `tools.UpdateMemory` (memory tool source, lines 15-73), with the file
system made explicit: `fileContent` is the current content of `memory.md`
(`none` when the file is missing or unreadable) and `writeErr` is the
error, if any, that `os.WriteFile` reports.  Returns the `MemoryResult`
together with the file content after the call. -/
def updateMemory (fileContent : Option String) (writeErr : Option String)
    (content mode : String) : MemoryResult × Option String :=
  if mode == "append" then
    let existing := fileContent.getD ""
    let existing :=
      if existing != "" && !existing.endsWith "\n" then existing ++ "\n" else existing
    match writeErr with
    | none => (⟨true, "Memory appended successfully"⟩, some (existing ++ content))
    | some e => (⟨false, "Failed to update memory: " ++ e⟩, fileContent)
  else
    match writeErr with
    | none => (⟨true, "Memory rewritten successfully"⟩, some content)
    | some e => (⟨false, "Failed to update memory: " ++ e⟩, fileContent)

/-- Model of Go `strings.TrimSpace` on a character list: drop whitespace
from both ends. -/
def trimChars (cs : List Char) : List Char :=
  ((cs.dropWhile Char.isWhitespace).reverse.dropWhile Char.isWhitespace).reverse

/-- Model of `queryUpper` (database.go:139):
`strings.TrimSpace(strings.ToUpper(query))`. -/
def queryUpper (q : String) : String :=
  String.mk (trimChars (q.data.map Char.toUpper))

/-- Model of Go `strings.HasPrefix`. -/
def goHasPfx (s pat : String) : Bool := pat.data.isPrefixOf s.data

/-- Model of `isSelect` (database.go:140-144): the uppercase-trimmed query
starts with one of SELECT, SHOW, DESCRIBE, DESC, EXPLAIN. -/
def isSelect (q : String) : Bool :=
  goHasPfx (queryUpper q) "SELECT" || goHasPfx (queryUpper q) "SHOW" ||
  goHasPfx (queryUpper q) "DESCRIBE" || goHasPfx (queryUpper q) "DESC" ||
  goHasPfx (queryUpper q) "EXPLAIN"

/-- Result of `sql.Result` for mutations: `RowsAffected`, `LastInsertId`. -/
structure ExecInfo where
  rowsAffected : Int
  lastInsertId : Int
deriving Repr, DecidableEq

/-- The database driver, made explicit: `exec` models `db.Exec` and
`query` models `db.Query` (rows already scanned into column→value maps,
as database.go:189-216 produces them). -/
structure DbEngine where
  exec : String → List GoVal → Except String ExecInfo
  query : String → List GoVal → Except String (List (List (String × GoVal)))

/-- Model of `tools.DatabaseResult` (database.go:106-115); `omitempty` fields are
options. -/
structure DatabaseResult where
  success : Bool
  rows : Option (List (List (String × GoVal))) := none
  count : Option Nat := none
  changes : Option Int := none
  lastInsertId : Option Int := none
  message : Option String := none
  error : Option String := none

/-- The execution plan `ExecuteDatabaseQuery` commits to: which driver
call runs and with which arguments (database.go:146, 169, 226-228). -/
inductive DbPlan where
  | rawExec (query : String)
  | preparedQuery (query : String) (params : List GoVal)
  | preparedExec (query : String) (params : List GoVal)

/-- Branch selection of `ExecuteDatabaseQuery` (database.go:146-252):
the raw exec path is taken only for `mode == "exec"` with no params;
otherwise the prepared path chosen by `isSelect` runs with the params. -/
def databasePlan (query : String) (params : List GoVal) (mode : String) : DbPlan :=
  if mode == "exec" && params.length == 0 then .rawExec query
  else if isSelect query then .preparedQuery query params
  else .preparedExec query params

/-- Run one plan against the driver, building the `DatabaseResult` the
corresponding branch of `ExecuteDatabaseQuery` builds (durations and log
lines dropped). -/
def runDbPlan (engine : DbEngine) : DbPlan → DatabaseResult
  | .rawExec q =>
    match engine.exec q [] with
    | .error e => { success := false, error := some e }
    | .ok _ => { success := true, message := some "Query executed successfully" }
  | .preparedQuery q params =>
    match engine.query q params with
    | .error e => { success := false, error := some e }
    | .ok allRows =>
      { success := true, rows := some allRows, count := some allRows.length }
  | .preparedExec q params =>
    match engine.exec q params with
    | .error e => { success := false, error := some e }
    | .ok info =>
      { success := true, changes := some info.rowsAffected,
        lastInsertId := some info.lastInsertId }

/-- Model of `tools.ExecuteDatabaseQuery` (database.go:117-253). -/
def executeDatabaseQuery (engine : DbEngine) (query : String) (params : List GoVal)
    (mode : String) : DatabaseResult :=
  runDbPlan engine (databasePlan query params mode)

theorem executeDatabaseQuery_eq_plan (engine : DbEngine) (q : String)
    (params : List GoVal) (mode : String) :
    executeDatabaseQuery engine q params mode = runDbPlan engine (databasePlan q params mode) :=
  rfl

/-- Generic retry backoff (handler source, lines 1238-1239 and 1305-1306):
`time.Duration(1<<uint(attempt-1)) * time.Second`, in seconds. -/
def genericBackoffSec (attempt : Nat) : Nat := 2 ^ (attempt - 1)

/-- Rate-limit retry backoff (handler source, line 1302):
`time.Duration(30*attempt) * time.Second`, in seconds.  The comment above
it in the source claims the schedule is "exponential backoff: 30s, 90s,
270s (4.5min), 810s (13.5min)". -/
def rateLimitBackoffSec (attempt : Nat) : Nat := 30 * attempt

/-- Outcome of one `client.Do` attempt: a transport error (retryable per
`isRetryableError` or not) or an HTTP response with a status code. -/
inductive AttemptOutcome where
  | netErr (retryable : Bool) (msg : String)
  | resp (status : Nat)
deriving Repr, DecidableEq

/-- What `doAPIRequestWithRetry` returns: the response handed back to the
caller (`ok`), an immediately fatal transport error, or retry exhaustion
(with the last retryable status, if the last failure was an HTTP one). -/
inductive RetryResult where
  | ok (status : Nat)
  | fatalErr (msg : String)
  | exhausted (lastStatus : Option Nat)
deriving Repr, DecidableEq

/-- Observable trace of one `doAPIRequestWithRetry` run: its result, how
many attempts `client.Do` was given, and the sleeps (in seconds) in
order. -/
structure RetryTrace where
  result : RetryResult
  attemptsUsed : Nat
  sleeps : List Nat
deriving Repr, DecidableEq

/-- The loop body of `doAPIRequestWithRetry` (handler source, lines
1292-1367).  `attempts n` is the outcome of `client.Do` on attempt `n`;
`fuel` counts the remaining loop iterations (`maxRetries+1` at the
start), `lastStatus` mirrors `lastResp` (set only for 429/5xx). -/
def apiRetryAux (attempts : Nat → AttemptOutcome) :
    Nat → Nat → Option Nat → List Nat → RetryTrace
  | 0, attempt, lastStatus, sleeps =>
    { result := .exhausted lastStatus, attemptsUsed := attempt, sleeps := sleeps }
  | fuel + 1, attempt, lastStatus, sleeps =>
    let sleeps :=
      if attempt > 0 then
        sleeps ++ [if lastStatus == some 429 then rateLimitBackoffSec attempt
                   else genericBackoffSec attempt]
      else sleeps
    match attempts attempt with
    | .netErr true _ => apiRetryAux attempts fuel (attempt + 1) lastStatus sleeps
    | .netErr false m =>
      { result := .fatalErr m, attemptsUsed := attempt + 1, sleeps := sleeps }
    | .resp s =>
      if s == 429 then apiRetryAux attempts fuel (attempt + 1) (some s) sleeps
      else if s ≥ 500 then apiRetryAux attempts fuel (attempt + 1) (some s) sleeps
      else { result := .ok s, attemptsUsed := attempt + 1, sleeps := sleeps }

/-- Model of `doAPIRequestWithRetry` (handler source, lines 1292-1367): at most
`maxRetries+1` iterations of the attempt loop. -/
def doAPIRequestWithRetry (attempts : Nat → AttemptOutcome) (maxRetries : Nat) : RetryTrace :=
  apiRetryAux attempts (maxRetries + 1) 0 none []

/-- The status gate every provider caller applies to the wrapper's
response (e.g. callSpark lines 1992-1995, callBaidu lines 3148-3151):
a non-200 status becomes an error returned to the handler. -/
def providerStatusGate (t : RetryTrace) : Except String Unit :=
  match t.result with
  | .ok s => if s != 200 then .error ("API error: status " ++ toString s) else .ok ()
  | .fatalErr m => .error m
  | .exhausted _ => .error "request failed after retries"

/-- Events of the rate-limiting preamble shared verbatim by `callSpark`,
`callQwen`, `callOpenAI`, `callAnthropic` and `callBaidu` (handler
source, lines 1901-1909, 2286-2294, 2550-2558, 2717-2725, 3044-3052). -/
inductive RLEvent where
  | lock
  | readTimestamp
  | sleep
  | setTimestamp
  | unlock
deriving Repr, DecidableEq

/-- The event sequence of that preamble: `apiCallMutex.Lock()`, read
`lastAPICallTime`, `time.Sleep` when the minimum interval has not elapsed
(`needWait`), write `lastAPICallTime`, `apiCallMutex.Unlock()`. -/
def rateLimitTrace (needWait : Bool) : List RLEvent :=
  [.lock, .readTimestamp] ++ (if needWait then [.sleep] else []) ++ [.setTimestamp, .unlock]

/-- The whole provider-call path as seen by the mutex: the rate-limiting
preamble followed by the retry wrapper's backoff sleeps (`retrySleeps`),
which happen after the unlock. -/
def providerCallTrace (needWait : Bool) (retrySleeps : List Nat) : List RLEvent :=
  rateLimitTrace needWait ++ retrySleeps.map (fun _ => .sleep)

/-- Scans a trace with the current lock depth; true iff some sleep event
occurs while the mutex is held. -/
def sleepHeldFrom : List RLEvent → Nat → Bool
  | [], _ => false
  | .lock :: rest, depth => sleepHeldFrom rest (depth + 1)
  | .unlock :: rest, depth => sleepHeldFrom rest (depth - 1)
  | .sleep :: rest, depth => depth > 0 || sleepHeldFrom rest depth
  | _ :: rest, depth => sleepHeldFrom rest depth

/-- True iff the trace sleeps while holding the mutex. -/
def sleepsWhileLocked (tr : List RLEvent) : Bool := sleepHeldFrom tr 0

/-- Operations `HandleLLMRequest` performs on the `http.ResponseWriter`. -/
inductive WriterOp where
  | setHeader (k v : String)
  | writeHeader (status : Int)
  | write (s : String)
deriving Repr, DecidableEq

/-- Model of `Header().Set` on the header map: replace the key or append it. -/
def setHeaderMap (hs : List (String × String)) (k v : String) : List (String × String) :=
  if hs.any (fun p => p.1 == k) then
    hs.map (fun p => if p.1 == k then (k, v) else p)
  else hs ++ [(k, v)]

/-- State of a `net/http` `ResponseWriter`: the mutable header map, the
status and header snapshot taken when the header was flushed (by
`WriteHeader`, or implicitly by the first `Write`), and the body. -/
structure WriterState where
  pending : List (String × String)
  flushed : Option (Int × List (String × String))
  body : String
deriving Repr, DecidableEq

/-- Semantics of `net/http`: `WriteHeader` flushes the status line together
with the headers set so far; later `Header().Set` calls change only the
in-memory map, not what was sent; `Write` flushes an implicit 200 first
if needed and appends to the body. -/
def stepWriter (st : WriterState) : WriterOp → WriterState
  | .setHeader k v => { st with pending := setHeaderMap st.pending k v }
  | .writeHeader s =>
    match st.flushed with
    | some _ => st
    | none => { st with flushed := some (s, st.pending) }
  | .write s =>
    match st.flushed with
    | some _ => { st with body := st.body ++ s }
    | none => { st with flushed := some (200, st.pending), body := st.body ++ s }

def runWriter (ops : List WriterOp) : WriterState :=
  ops.foldl stepWriter { pending := [], flushed := none, body := "" }

/-- The response on the wire: the flushed status and headers, plus the
body written. -/
structure WireResponse where
  status : Int
  headers : List (String × String)
  body : String
deriving Repr, DecidableEq

def wireOf (st : WriterState) : WireResponse :=
  match st.flushed with
  | some (s, hs) => { status := s, headers := hs, body := st.body }
  | none => { status := 200, headers := st.pending, body := st.body }

/-- The writer-operation sequence of `HandleLLMRequest`'s response phase
(handler source, lines 1476-1496): with a `webResponse`, it calls
`WriteHeader(statusCode)` first, then sets the headers, then writes the
body; without one it sets Content-Type, writes 200 and the fallback
page. -/
def handlerRespondOps (webResponse : Option WebResponse) (fallbackBody : String) :
    List WriterOp :=
  match webResponse with
  | some wr =>
    [WriterOp.writeHeader wr.statusCode] ++
    wr.headers.map (fun p => WriterOp.setHeader p.1 p.2) ++
    [WriterOp.write wr.body]
  | none =>
    [WriterOp.setHeader "Content-Type" "text/html; charset=utf-8",
     WriterOp.writeHeader 200, WriterOp.write fallbackBody]

/-- The wire response the HTTP client receives from `HandleLLMRequest`'s
response phase. -/
def handlerWire (webResponse : Option WebResponse) (fallbackBody : String) : WireResponse :=
  wireOf (runWriter (handlerRespondOps webResponse fallbackBody))

/-- What `executeToolCall` returns (handler source, lines 1660-1709): a
`*tools.WebResponse` for the webResponse tool, a `DatabaseResult` or
`MemoryResult` for the other two, and `nil` for an unknown tool name. -/
inductive ToolOutcome where
  | web (wr : WebResponse)
  | dbRes (r : DatabaseResult)
  | memRes (r : MemoryResult)
  | noop

/-- The external collaborators `executeToolCall` touches: the database
driver and the memory file (content plus the write error, if any). -/
structure ToolEnv where
  engine : DbEngine
  memoryFile : Option String
  memWriteErr : Option String

/-- Model of `executeToolCall` (handler source, lines 1660-1709), with the tool
name and its decoded argument map passed in.  database: query/params and
mode defaulting to "query"; webResponse: statusCode defaulting to 200,
contentType and body; updateMemory: content and mode. -/
def executeToolCall (env : ToolEnv) (toolName : String)
    (args : List (String × GoVal)) : ToolOutcome :=
  if toolName == "database" then
    .dbRes (executeDatabaseQuery env.engine (getStr args "query") (getArr args "params")
      (getStrD args "mode" "query"))
  else if toolName == "webResponse" then
    .web (createWebResponse (getNumD args "statusCode" 200) (getStr args "contentType")
      (getStr args "body"))
  else if toolName == "updateMemory" then
    .memRes (updateMemory env.memoryFile env.memWriteErr (getStr args "content")
      (getStr args "mode")).1
  else .noop

/-- One Anthropic content block: a text block or a `tool_use` block with
its id, name and input map. -/
inductive ContentItem where
  | text (s : String)
  | toolUse (id name : String) (args : List (String × GoVal))

/-- What a message's `Content interface{}` field holds: a plain string,
a `*tools.WebResponse` (as `processToolCallsAnthropic` stores on its
short-circuit return, handler source lines 2884-2895), or a block list. -/
inductive MsgContent where
  | str (s : String)
  | web (wr : WebResponse)
  | blocks (items : List ContentItem)

/-- One `Choice` of the neutral `LLMResponse`. -/
structure ChoiceM where
  role : String
  content : MsgContent
  finishReason : String := ""

/-- The neutral `LLMResponse` (choices only; id and usage dropped). -/
structure LLMResp where
  choices : List ChoiceM

/-- The terminal `LLMResponse` `processToolCallsAnthropic` builds when a
tool call produced a `WebResponse` (handler source, lines 2884-2895): a
single assistant choice whose `Content` is the `WebResponse` value
itself. -/
def anthropicTerminalResponse (wr : WebResponse) : LLMResp :=
  { choices := [{ role := "assistant", content := .web wr }] }

/-- Helper for the substring test: pattern found at some position. -/
def containsSubFrom : List Char → List Char → Bool
  | [], pat => pat.isEmpty
  | s@(_ :: rest), pat => pat.isPrefixOf s || containsSubFrom rest pat

/-- Model of Go `strings.Contains`. -/
def containsSub (s pat : String) : Bool := containsSubFrom s.data pat.data

/-- The HTML-marker fallback inside `extractWebResponse` (handler source,
lines 1728-1733). -/
def htmlMarkerCheck (s : String) : Option WebResponse :=
  if containsSub s "<html" || containsSub s "<!DOCTYPE html" then
    some (createWebResponse 200 "text/html" s)
  else none

/-- One iteration of `extractWebResponse`'s loop on a choice (handler
source, lines 1713-1735).  `jsonDecode` stands for
`encoding/json.Unmarshal` into `map[string]interface{}` (`none` when the
string is not a JSON object).  Only a string `Content` is inspected: the
type assertion `Content.(string)` fails on anything else. -/
def extractFromChoice (jsonDecode : String → Option (List (String × GoVal)))
    (c : ChoiceM) : Option WebResponse :=
  if c.role == "assistant" then
    match c.content with
    | .str contentStr =>
      match jsonDecode contentStr with
      | some fields =>
        match lookupGo fields "statusCode" with
        | some (.num sc) =>
          some (createWebResponse sc (getStr fields "contentType") (getStr fields "body"))
        | _ => htmlMarkerCheck contentStr
      | none => htmlMarkerCheck contentStr
    | _ => none
  else none

/-- Model of `extractWebResponse` (handler source, lines 1711-1738): the first
choice that yields a `WebResponse`, else `nil`. -/
def extractWebResponse (jsonDecode : String → Option (List (String × GoVal)))
    (resp : LLMResp) : Option WebResponse :=
  resp.choices.findSome? (extractFromChoice jsonDecode)

/-- Outcome of the tool-call round of `processToolCallsAnthropic`
(handler source, lines 2856-2903): either the round short-circuits with a
`WebResponse` (returning before any further vendor request is built), or
it proceeds to another model round-trip carrying the tool results. -/
inductive RoundOutcome where
  | terminal (wr : WebResponse)
  | moreRounds (toolResults : List (String × ToolOutcome))

/-- Trace of one round: every executed tool call `(id, name)` in order,
and the outcome. -/
structure RoundTrace where
  executed : List (String × String)
  outcome : RoundOutcome

/-- Accumulator step for the round loop (handler source, lines
2860-2881): every `tool_use` item is executed; a `WebResponse` result is
remembered (the last one wins); every result is appended to the
`tool_result` list. -/
def anthropicRoundStep (env : ToolEnv)
    (acc : List (String × String) × Option WebResponse × List (String × ToolOutcome))
    (item : ContentItem) :
    List (String × String) × Option WebResponse × List (String × ToolOutcome) :=
  match item with
  | .text _ => acc
  | .toolUse id name args =>
    let r := executeToolCall env name args
    let wrAcc := match r with | .web wr => some wr | _ => acc.2.1
    (acc.1 ++ [(id, name)], wrAcc, acc.2.2 ++ [(id, r)])

/-- The tool-call round of `processToolCallsAnthropic` (handler source,
lines 2856-2903): run every `tool_use` item of the assistant content in
order, then — only after the loop — short-circuit if some execution
produced a `WebResponse`. -/
def anthropicRound (env : ToolEnv) (content : List ContentItem) : RoundTrace :=
  let acc := content.foldl (anthropicRoundStep env) ([], none, [])
  match acc.2.1 with
  | some wr => { executed := acc.1, outcome := .terminal wr }
  | none => { executed := acc.1, outcome := .moreRounds acc.2.2 }

/-- The `tool_use` items of a content list, as `(id, name)` pairs. -/
def toolUsesOf (content : List ContentItem) : List (String × String) :=
  content.filterMap (fun item =>
    match item with
    | .toolUse id name _ => some (id, name)
    | .text _ => none)

/-- True iff some `tool_use` item of the content calls the given tool. -/
def containsToolCall (content : List ContentItem) (name : String) : Bool :=
  content.any (fun item =>
    match item with
    | .toolUse _ n _ => n == name
    | .text _ => false)

/-- The poem-row query of `generateFallbackPoemPage` (handler source,
line 2200). -/
def fallbackPoemQuery : String :=
  "SELECT title, author, dynasty, content FROM poems ORDER BY RAND() LIMIT 1"

/-- The two canned fallback pages of `generateFallbackPoemPage` (handler
source, lines 2198-2282), abstracted to the data each HTML template is
instantiated with: a page rendered from the queried poem row, or the
fixed static poem page. -/
inductive FallbackPage where
  | poemFromDb (title author : GoVal) (dynastyText : String) (content : GoVal)
  | staticPoem

/-- The dynasty display conversion (handler source, lines 2213-2216). -/
def dynastyDisplay (dynasty : Option GoVal) : String :=
  match dynasty with
  | some (.str s) => if s == "song" then "宋代" else "唐代"
  | _ => "唐代"

/-- Model of `generateFallbackPoemPage` (handler source, lines 2198-2282): query a
random poem with `ExecuteDatabaseQuery(query, [], "select")`; on success
with at least one row render that row, otherwise the static page. -/
def generateFallbackPoemPage (engine : DbEngine) : FallbackPage :=
  let result := executeDatabaseQuery engine fallbackPoemQuery [] "select"
  match result.rows with
  | some (row :: _) =>
    if result.success then
      .poemFromDb ((lookupGo row "title").getD .null) ((lookupGo row "author").getD .null)
        (dynastyDisplay (lookupGo row "dynasty")) ((lookupGo row "content").getD .null)
    else .staticPoem
  | _ => .staticPoem

/-- Body of the response of the handler-package `HandleLLMRequest`,
abstracted to the data each branch writes. -/
inductive BodyV where
  | raw (s : String)
  | errorPage (requestId errText : String)
  | poemPage (p : FallbackPage)

/-- Status and body pair delivered by a handler. -/
structure HttpOut where
  status : Int
  body : BodyV

/-- Response selection of the handler-package `HandleLLMRequest`
(handler source, lines 1428-1443 and 1472-1496): a failed LLM call is a
500 error page; an extracted `webResponse` is sent as is; otherwise a 200
with the fallback poem page. -/
def handleLLMRequestOutcome (jsonDecode : String → Option (List (String × GoVal)))
    (engine : DbEngine) (requestId : String)
    (llmResult : Except String LLMResp) : HttpOut :=
  match llmResult with
  | .error e => { status := 500, body := .errorPage requestId e }
  | .ok resp =>
    match extractWebResponse jsonDecode resp with
    | some wr => { status := wr.statusCode, body := .raw wr.body }
    | none => { status := 200, body := .poemPage (generateFallbackPoemPage engine) }

/-- The gin middleware variant of `extractWebResponse` (middleware
source, lines 407-427): same JSON promotion, but no HTML-marker
fallback. -/
def extractWebResponseGin (jsonDecode : String → Option (List (String × GoVal)))
    (resp : LLMResp) : Option WebResponse :=
  resp.choices.findSome? (fun c =>
    if c.role == "assistant" then
      match c.content with
      | .str contentStr =>
        match jsonDecode contentStr with
        | some fields =>
          match lookupGo fields "statusCode" with
          | some (.num sc) =>
            some (createWebResponse sc (getStr fields "contentType") (getStr fields "body"))
          | _ => none
        | none => none
      | _ => none
    else none)

/-- Response selection of the gin middleware `HandleLLMRequest`
(middleware source, lines 130-143 and 193-211): failed LLM call → 500
error page; extracted `webResponse` → its status and body; otherwise a
200 with the fixed text "No response generated". -/
def handleLLMRequestGinOutcome (jsonDecode : String → Option (List (String × GoVal)))
    (requestId : String) (llmResult : Except String LLMResp) : HttpOut :=
  match llmResult with
  | .error e => { status := 500, body := .errorPage requestId e }
  | .ok resp =>
    match extractWebResponseGin jsonDecode resp with
    | some wr => { status := wr.statusCode, body := .raw wr.body }
    | none => { status := 200, body := .raw "No response generated" }

/-- A JSON decoder that recognises nothing, for concrete instances. -/
def jsonDecodeNone : String → Option (List (String × GoVal)) := fun _ => none

/-- A concrete driver whose mutations report the number of bound
parameters as the affected-row count and 7 as the last insert id. -/
def engineCount : DbEngine :=
  { exec := fun _ ps => .ok ⟨(ps.length : Int), 7⟩
    query := fun _ _ => .ok [] }

/-- A concrete tool environment over `engineCount`. -/
def env0 : ToolEnv := { engine := engineCount, memoryFile := none, memWriteErr := none }

/-- A mutation statement (used as the concrete non-SELECT query). -/
def qIns : String := "INSERT INTO contacts (name) VALUES (?)"

/-- Arguments of the spec's example tool call
`webResponse{statusCode:302, headers:{Location:"/contacts/1"}}`. -/
def wrArgs302 : List (String × GoVal) :=
  [("statusCode", GoVal.num 302),
   ("headers", GoVal.obj [("Location", GoVal.str "/contacts/1")])]

/-- What `executeToolCall` actually builds from `wrArgs302`: status 302,
empty contentType and body, and no headers at all. -/
def wr302 : WebResponse :=
  { statusCode := 302, contentType := "", body := "", headers := [] }

/-- A `WebResponse` that carries the Location header, as the spec intends
the example to produce. -/
def wr302loc : WebResponse :=
  { statusCode := 302, contentType := "", body := "", headers := [("Location", "/contacts/1")] }

/-- Arguments of a database INSERT tool call. -/
def dbArgsIns : List (String × GoVal) :=
  [("query", GoVal.str qIns), ("params", GoVal.arr [GoVal.str "Alice"]),
   ("mode", GoVal.str "query")]

/-- An Anthropic round whose content carries a webResponse tool call
followed by a further database tool call. -/
def content0 : List ContentItem :=
  [ContentItem.toolUse "toolu-1" "webResponse" wrArgs302,
   ContentItem.toolUse "toolu-2" "database" dbArgsIns]

/-- A final response whose single assistant message is plain text that is
neither JSON nor HTML. -/
def respHello : LLMResp := { choices := [{ role := "assistant", content := .str "hello" }] }

/-- C1: the claim fails on the code.  The dispatcher builds the example
`webResponse{statusCode:302, headers:{Location:"/contacts/1"}}` into a
`WebResponse` with NO headers (executeToolCall reads only
statusCode/contentType/body), and even a `WebResponse` that does carry
the Location header loses it on the wire, because `HandleLLMRequest`
calls `WriteHeader` before `Header().Set`, after which `net/http` no
longer sends header changes.  The client receives a 302 without the
Location header. -/
theorem webResponse_headers_dropped :
    executeToolCall env0 "webResponse" wrArgs302 = .web wr302
    ∧ handlerWire (some wr302) "" = { status := 302, headers := [], body := "" }
    ∧ (handlerWire (some wr302loc) "").headers = []
    ∧ ("Location", "/contacts/1") ∉ (handlerWire (some wr302loc) "").headers := by
  refine ⟨rfl, rfl, rfl, ?_⟩
  decide

/-- C3: the claim fails on the code.  When the webResponse tool fires on
the Anthropic path, the dispatcher's round returns a terminal
`LLMResponse` whose assistant `Content` holds the `WebResponse` value
itself, but `extractWebResponse` inspects only string contents (the
`Content.(string)` type assertion fails on a `*tools.WebResponse`), so it
returns `nil` — whatever the JSON decoder does — and the handler falls
through to the default response. -/
theorem extractWebResponse_misses_dispatcher_terminal
    (jsonDecode : String → Option (List (String × GoVal))) (env : ToolEnv) :
    executeToolCall env "webResponse" wrArgs302 = .web wr302
    ∧ (anthropicRound env [ContentItem.toolUse "toolu-1" "webResponse" wrArgs302]).outcome
        = .terminal wr302
    ∧ extractWebResponse jsonDecode (anthropicTerminalResponse wr302) = none :=
  ⟨rfl, rfl, rfl⟩

/-- C2 counterexample: an Anthropic round carrying a webResponse tool
call followed by a database tool call executes BOTH calls — the round
loop runs every `tool_use` item and only checks for a `WebResponse`
after the loop — refuting that the orchestrator terminates without
executing the remaining tool calls of the same round. -/
theorem anthropicRound_executes_after_webResponse :
    (anthropicRound env0 content0).executed = [("toolu-1", "webResponse"), ("toolu-2", "database")]
    ∧ ("toolu-2", "database") ∈ (anthropicRound env0 content0).executed
    ∧ (anthropicRound env0 content0).outcome = .terminal wr302 := by
  refine ⟨rfl, ?_, rfl⟩
  decide

/-- C4: the claim fails on the code.  The rate-limit (429) backoff is
`30*attempt` — 30s, 60s, 90s, 120s, 150s — a linear schedule, not the
exponential one the claim (and the code's own comment, "30s, 90s, 270s,
810s") states: three consecutive delays are not geometric.  The generic
schedule 1s, 2s, 4s is exponential, the attempt count is capped at
maxRetries+1, and the 429 base delay is indeed larger. -/
theorem rateLimit_backoff_linear_not_exponential :
    (doAPIRequestWithRetry (fun _ => AttemptOutcome.resp 429) 5).sleeps = [30, 60, 90, 120, 150]
    ∧ (doAPIRequestWithRetry (fun _ => AttemptOutcome.resp 429) 5).attemptsUsed = 6
    ∧ (doAPIRequestWithRetry
        (fun n => if n < 3 then AttemptOutcome.resp 500 else AttemptOutcome.resp 200) 5).sleeps
        = [1, 2, 4]
    ∧ (doAPIRequestWithRetry (fun _ => AttemptOutcome.resp 500) 2).attemptsUsed = 3
    ∧ rateLimitBackoffSec 1 * rateLimitBackoffSec 3 ≠ rateLimitBackoffSec 2 * rateLimitBackoffSec 2
    ∧ rateLimitBackoffSec 1 > genericBackoffSec 1 := by
  decide

/-- C9 counterexample: when the minimum inter-call interval has not yet
elapsed, every provider-call path sleeps BETWEEN `apiCallMutex.Lock()`
and `apiCallMutex.Unlock()` — the mutex is held across the rate-limit
sleep, refuting that it is released before sleeping. -/
theorem rateLimiter_sleeps_while_holding_mutex :
    sleepsWhileLocked (rateLimitTrace true) = true := by
  decide

/-- Backoff sleeps alone never count as sleeping under the mutex. -/
theorem sleepHeldFrom_sleeps_unlocked (ks : List Nat) :
    sleepHeldFrom (ks.map (fun _ => RLEvent.sleep)) 0 = false := by
  induction ks with
  | nil => rfl
  | cons k rest ih => simpa [sleepHeldFrom] using ih

/-- C9, amended: every provider-call path acquires the mutex, reads the
timestamp, sleeps for the remaining interval — if one is needed — while
STILL HOLDING the mutex, then updates the timestamp and releases it; the
retry wrapper's backoff sleeps happen after the release.  So the path
sleeps under the mutex exactly when the rate-limit wait triggers, and the
preamble begins with the acquire and ends with the release. -/
theorem rateLimiter_holds_mutex_across_wait (needWait : Bool) (retrySleeps : List Nat) :
    sleepsWhileLocked (providerCallTrace needWait retrySleeps) = needWait
    ∧ (rateLimitTrace needWait).head? = some RLEvent.lock
    ∧ (rateLimitTrace needWait).getLast? = some RLEvent.unlock := by
  refine ⟨?_, ?_, ?_⟩
  · cases needWait with
    | false =>
      simpa [providerCallTrace, rateLimitTrace, sleepsWhileLocked, sleepHeldFrom] using
        sleepHeldFrom_sleeps_unlocked retrySleeps
    | true =>
      simp [providerCallTrace, rateLimitTrace, sleepsWhileLocked, sleepHeldFrom]
  · cases needWait <;> rfl
  · cases needWait <;> rfl

/-- The executed-calls accumulator of the Anthropic round: the fold
executes exactly the `tool_use` items, in order. -/
theorem anthropicRound_foldl_executed (env : ToolEnv) (content : List ContentItem)
    (e : List (String × String)) (w : Option WebResponse)
    (r : List (String × ToolOutcome)) :
    (content.foldl (anthropicRoundStep env) (e, w, r)).1 = e ++ toolUsesOf content := by
  induction content generalizing e w r with
  | nil => simp [toolUsesOf]
  | cons item rest ih =>
    cases item with
    | text s => simpa [anthropicRoundStep, toolUsesOf] using ih e w r
    | toolUse id name args =>
      simp only [List.foldl_cons, anthropicRoundStep, toolUsesOf, List.filterMap_cons]
      rw [ih]
      simp [toolUsesOf]


/-- If the content carries a webResponse tool call — or the accumulator
already holds one — the fold ends with a `WebResponse` in hand. -/
theorem anthropicRound_foldl_web (env : ToolEnv) (content : List ContentItem)
    (e : List (String × String)) (w : Option WebResponse)
    (r : List (String × ToolOutcome))
    (h : containsToolCall content "webResponse" = true ∨ ∃ x, w = some x) :
    ∃ x, (content.foldl (anthropicRoundStep env) (e, w, r)).2.1 = some x := by
  induction content generalizing e w r with
  | nil =>
    rcases h with h | ⟨x, hx⟩
    · simp [containsToolCall] at h
    · exact ⟨x, by simpa using hx⟩
  | cons item rest ih =>
    cases item with
    | text s =>
      rw [List.foldl_cons]
      refine ih e w r ?_
      rcases h with h | hx
      · exact Or.inl (by simpa [containsToolCall] using h)
      · exact Or.inr hx
    | toolUse id name args =>
      rw [List.foldl_cons]
      by_cases hn : name = "webResponse"
      · subst hn
        have hw : executeToolCall env "webResponse" args =
            .web (createWebResponse (getNumD args "statusCode" 200)
              (getStr args "contentType") (getStr args "body")) := rfl
        simp only [anthropicRoundStep, hw]
        exact ih _ _ _ (Or.inr ⟨_, rfl⟩)
      · cases hres : executeToolCall env name args with
        | web wr =>
          simp only [anthropicRoundStep, hres]
          exact ih _ _ _ (Or.inr ⟨wr, rfl⟩)
        | dbRes q =>
          simp only [anthropicRoundStep, hres]
          rcases h with h | ⟨x, hx⟩
          · exact ih _ _ _ (Or.inl (by simpa [containsToolCall, hn] using h))
          · exact ih _ _ _ (Or.inr ⟨x, hx⟩)
        | memRes q =>
          simp only [anthropicRoundStep, hres]
          rcases h with h | ⟨x, hx⟩
          · exact ih _ _ _ (Or.inl (by simpa [containsToolCall, hn] using h))
          · exact ih _ _ _ (Or.inr ⟨x, hx⟩)
        | noop =>
          simp only [anthropicRoundStep, hres]
          rcases h with h | ⟨x, hx⟩
          · exact ih _ _ _ (Or.inl (by simpa [containsToolCall, hn] using h))
          · exact ih _ _ _ (Or.inr ⟨x, hx⟩)

/-- C2, amended: on the Anthropic path, a round whose content carries a
webResponse tool call executes ALL tool calls of the round (in model
order) and only then short-circuits: it returns a terminal response
without building another vendor request (no further model round-trip). -/
theorem anthropicRound_short_circuit_after_executing_all (env : ToolEnv)
    (content : List ContentItem)
    (h : containsToolCall content "webResponse" = true) :
    (anthropicRound env content).executed = toolUsesOf content
    ∧ ∃ wr, (anthropicRound env content).outcome = .terminal wr := by
  obtain ⟨x, hx⟩ := anthropicRound_foldl_web env content [] none [] (Or.inl h)
  constructor
  · have hex := anthropicRound_foldl_executed env content [] none []
    simp only [anthropicRound]
    rw [hx]
    simpa using hex
  · refine ⟨x, ?_⟩
    simp only [anthropicRound]
    rw [hx]

/-- Witness for the amended C2 at a concrete round. -/
theorem anthropicRound_short_circuit_witness :
    containsToolCall content0 "webResponse" = true
    ∧ ((anthropicRound env0 content0).executed = toolUsesOf content0
       ∧ ∃ wr, (anthropicRound env0 content0).outcome = .terminal wr) :=
  ⟨by decide, anthropicRound_short_circuit_after_executing_all env0 content0 (by decide)⟩

/-- C5: a 4xx response other than 429 is returned by the retry wrapper on
the very first attempt — no sleep, no retry — the provider's status gate
turns it into an error, and the handler answers the HTTP client with a
500. -/
theorem non429_4xx_no_retry_surfaces_500
    (attempts : Nat → AttemptOutcome) (maxRetries s : Nat)
    (jsonDecode : String → Option (List (String × GoVal)))
    (engine : DbEngine) (rid : String)
    (hlo : 400 ≤ s) (hhi : s < 500) (h429 : s ≠ 429)
    (h0 : attempts 0 = AttemptOutcome.resp s) :
    doAPIRequestWithRetry attempts maxRetries =
      { result := .ok s, attemptsUsed := 1, sleeps := [] }
    ∧ providerStatusGate (doAPIRequestWithRetry attempts maxRetries) =
        .error ("API error: status " ++ toString s)
    ∧ (handleLLMRequestOutcome jsonDecode engine rid
        (.error ("API error: status " ++ toString s))).status = 500 := by
  have hb429 : (s == 429) = false := by simpa using h429
  have hb500 : ¬ (s ≥ 500) := by omega
  have hb200 : (s != 200) = true := by
    have : s ≠ 200 := by omega
    simpa using this
  have hrun : doAPIRequestWithRetry attempts maxRetries =
      { result := .ok s, attemptsUsed := 1, sleeps := [] } := by
    simp [doAPIRequestWithRetry, apiRetryAux, h0, hb429, hb500]
  refine ⟨hrun, ?_, rfl⟩
  rw [hrun]
  simp [providerStatusGate, hb200]

/-- Witness for C5 at a concrete 400 response. -/
theorem non429_4xx_witness :
    (400 ≤ 400 ∧ 400 < 500 ∧ 400 ≠ 429 ∧
      (fun _ : Nat => AttemptOutcome.resp 400) 0 = AttemptOutcome.resp 400)
    ∧ (doAPIRequestWithRetry (fun _ => AttemptOutcome.resp 400) 5 =
        { result := .ok 400, attemptsUsed := 1, sleeps := [] }
      ∧ providerStatusGate (doAPIRequestWithRetry (fun _ => AttemptOutcome.resp 400) 5) =
          .error ("API error: status " ++ toString 400)
      ∧ (handleLLMRequestOutcome jsonDecodeNone engineCount "req-1"
          (.error ("API error: status " ++ toString 400))).status = 500) :=
  ⟨⟨by decide, by decide, by decide, rfl⟩,
   non429_4xx_no_retry_surfaces_500 (fun _ => AttemptOutcome.resp 400) 5 400
     jsonDecodeNone engineCount "req-1" (by decide) (by decide) (by decide) rfl⟩

/-- C6 counterexample: a database tool call with mode "exec" and a
non-empty parameter list is neither rejected nor are its parameters
ignored — the call succeeds through the prepared-statement path with the
parameter bound (the driver sees one bound parameter), unlike the run
with the same query and no parameters, which takes the raw exec path. -/
theorem execMode_params_used_not_ignored :
    databasePlan qIns [GoVal.str "Alice"] "exec" = .preparedExec qIns [GoVal.str "Alice"]
    ∧ (executeDatabaseQuery engineCount qIns [GoVal.str "Alice"] "exec").error = none
    ∧ (executeDatabaseQuery engineCount qIns [GoVal.str "Alice"] "exec").success = true
    ∧ (executeDatabaseQuery engineCount qIns [GoVal.str "Alice"] "exec").changes = some 1
    ∧ (executeDatabaseQuery engineCount qIns [] "exec").changes = none
    ∧ (executeDatabaseQuery engineCount qIns [] "exec").message =
        some "Query executed successfully" := by
  refine ⟨rfl, by decide, by decide, by decide, by decide, by decide⟩

/-- C6, amended: with mode "exec" and non-empty params the dispatcher
ignores the exec MODE, not the parameters: it executes through the
prepared-statement path with the parameters bound, choosing query vs
mutation by the SQL keyword; the raw exec path is reserved for empty
params, and it returns no row results. -/
theorem execMode_nonempty_params_prepared_path (engine : DbEngine) (q : String)
    (params : List GoVal) (mode : String)
    (hm : mode = "exec") (hp : params ≠ []) :
    databasePlan q params mode =
      (if isSelect q then DbPlan.preparedQuery q params else DbPlan.preparedExec q params)
    ∧ (executeDatabaseQuery engine q [] "exec").rows = none := by
  constructor
  · subst hm
    have hlen : (params.length == 0) = false := by
      simpa [List.length_eq_zero] using hp
    simp [databasePlan, hlen]
  · cases hres : engine.exec q [] <;>
      simp [executeDatabaseQuery, databasePlan, isSelect, queryUpper, runDbPlan, hres]

/-- Witness for the amended C6 at a concrete INSERT with one bound
parameter. -/
theorem execMode_nonempty_params_witness :
    ("exec" = "exec" ∧ [GoVal.str "Alice"] ≠ ([] : List GoVal))
    ∧ (databasePlan qIns [GoVal.str "Alice"] "exec" =
        (if isSelect qIns then DbPlan.preparedQuery qIns [GoVal.str "Alice"]
         else DbPlan.preparedExec qIns [GoVal.str "Alice"])
      ∧ (executeDatabaseQuery engineCount qIns [] "exec").rows = none) :=
  ⟨⟨rfl, by simp⟩,
   execMode_nonempty_params_prepared_path engineCount qIns [GoVal.str "Alice"] "exec"
     rfl (by simp)⟩

/-- C7: when the LLM call succeeded but no terminal response was
extracted, neither handler variant fails the HTTP request: the
handler-package variant writes a 200 with the fallback poem page (a
canned HTML page rendered from a stored poem row when one exists,
otherwise the fixed static page), and the gin middleware variant writes a
200 with the fixed text "No response generated". -/
theorem no_terminal_response_fallback_200
    (jsonDecode : String → Option (List (String × GoVal)))
    (engine : DbEngine) (rid : String) (resp : LLMResp)
    (h3 : extractWebResponse jsonDecode resp = none)
    (h7 : extractWebResponseGin jsonDecode resp = none) :
    handleLLMRequestOutcome jsonDecode engine rid (.ok resp) =
      { status := 200, body := .poemPage (generateFallbackPoemPage engine) }
    ∧ handleLLMRequestGinOutcome jsonDecode rid (.ok resp) =
      { status := 200, body := .raw "No response generated" }
    ∧ (generateFallbackPoemPage engine = .staticPoem ∨
       ∃ t a d c, generateFallbackPoemPage engine = .poemFromDb t a d c) := by
  refine ⟨?_, ?_, ?_⟩
  · simp [handleLLMRequestOutcome, h3]
  · simp [handleLLMRequestGinOutcome, h7]
  · cases hp : generateFallbackPoemPage engine with
    | staticPoem => exact Or.inl rfl
    | poemFromDb t a d c => exact Or.inr ⟨t, a, d, c, rfl⟩

/-- Witness for C7: a plain-text final message that is neither JSON nor
HTML, against a database with no poem rows. -/
theorem no_terminal_response_witness :
    (extractWebResponse jsonDecodeNone respHello = none
     ∧ extractWebResponseGin jsonDecodeNone respHello = none)
    ∧ (handleLLMRequestOutcome jsonDecodeNone engineCount "req-2" (.ok respHello) =
        { status := 200, body := .poemPage (generateFallbackPoemPage engineCount) }
      ∧ handleLLMRequestGinOutcome jsonDecodeNone "req-2" (.ok respHello) =
        { status := 200, body := .raw "No response generated" }
      ∧ (generateFallbackPoemPage engineCount = .staticPoem ∨
         ∃ t a d c, generateFallbackPoemPage engineCount = .poemFromDb t a d c)) :=
  ⟨⟨rfl, rfl⟩,
   no_terminal_response_fallback_200 jsonDecodeNone engineCount "req-2" respHello rfl rfl⟩

/-- C8: updateMemory in append mode concatenates the new content after
the existing file content, inserting a newline separator exactly when the
existing content is non-empty and does not already end in a newline; in
rewrite mode it replaces the file wholesale; and its returned result
carries only success/failure — it is independent of both the stored and
the new content. -/
theorem updateMemory_spec (fc : Option String) (content : String) :
    (updateMemory fc none content "append").2 =
      some ((if fc.getD "" ≠ "" ∧ (fc.getD "").endsWith "\n" = false
             then fc.getD "" ++ "\n" else fc.getD "") ++ content)
    ∧ (updateMemory fc none content "rewrite").2 = some content
    ∧ (updateMemory fc none content "append").1 = ⟨true, "Memory appended successfully"⟩
    ∧ (updateMemory fc none content "rewrite").1 = ⟨true, "Memory rewritten successfully"⟩
    ∧ ∀ (fc' : Option String) (c' : String) (w : Option String) (m : String),
        (updateMemory fc w content m).1 = (updateMemory fc' w c' m).1 := by
  refine ⟨?_, ?_, ?_, ?_, ?_⟩
  · by_cases h1 : fc.getD "" = "" <;> by_cases h2 : (fc.getD "").endsWith "\n" = true <;>
      simp [updateMemory, h1, h2]
  · simp [updateMemory]
  · simp [updateMemory]
  · simp [updateMemory]
  · intro fc' c' w m
    by_cases hm : (m == "append") = true <;> cases w <;> simp [updateMemory, hm]

/-- C10: outside the raw-exec branch, whether a database call runs as a
row-returning query or as a mutation is decided solely by the SQL keyword
at the front of the statement — the mode argument is irrelevant — and the
mutation path reports the driver's affected-row count and last insert
id. -/
theorem db_dispatch_by_sql_keyword (engine : DbEngine) (q : String)
    (params : List GoVal) (mode : String)
    (h : ¬ (mode = "exec" ∧ params = [])) :
    executeDatabaseQuery engine q params mode = executeDatabaseQuery engine q params "query"
    ∧ databasePlan q params mode =
        (if isSelect q then DbPlan.preparedQuery q params else DbPlan.preparedExec q params)
    ∧ (isSelect q = false →
        executeDatabaseQuery engine q params mode =
          (match engine.exec q params with
           | .error e => { success := false, error := some e }
           | .ok info => { success := true, changes := some info.rowsAffected,
                           lastInsertId := some info.lastInsertId })) := by
  have hplan : databasePlan q params mode =
      (if isSelect q then DbPlan.preparedQuery q params else DbPlan.preparedExec q params) := by
    by_cases hm : mode = "exec"
    · have hp : params ≠ [] := fun hc => h ⟨hm, hc⟩
      have hlen : (params.length == 0) = false := by
        simpa [List.length_eq_zero] using hp
      simp [databasePlan, hm, hlen]
    · have hbm : (mode == "exec") = false := by simpa using hm
      simp [databasePlan, hbm]
  have hq : databasePlan q params "query" =
      (if isSelect q then DbPlan.preparedQuery q params else DbPlan.preparedExec q params) := by
    simp [databasePlan]
  refine ⟨?_, hplan, ?_⟩
  · rw [executeDatabaseQuery_eq_plan, executeDatabaseQuery_eq_plan, hplan, hq]
  · intro hsel
    rw [executeDatabaseQuery_eq_plan, hplan, hsel]
    cases hres : engine.exec q params <;> simp [runDbPlan, hres]

/-- Witness for C10: an INSERT issued with mode "query" still runs as a
mutation and reports changes and lastInsertId. -/
theorem db_dispatch_witness :
    (¬ ("query" = "exec" ∧ ([GoVal.str "Alice"] : List GoVal) = []))
    ∧ (executeDatabaseQuery engineCount qIns [GoVal.str "Alice"] "query" =
        executeDatabaseQuery engineCount qIns [GoVal.str "Alice"] "query"
      ∧ databasePlan qIns [GoVal.str "Alice"] "query" =
          (if isSelect qIns then DbPlan.preparedQuery qIns [GoVal.str "Alice"]
           else DbPlan.preparedExec qIns [GoVal.str "Alice"])
      ∧ (isSelect qIns = false →
          executeDatabaseQuery engineCount qIns [GoVal.str "Alice"] "query" =
            (match engineCount.exec qIns [GoVal.str "Alice"] with
             | .error e => { success := false, error := some e }
             | .ok info => { success := true, changes := some info.rowsAffected,
                             lastInsertId := some info.lastInsertId }))) :=
  ⟨by simp,
   db_dispatch_by_sql_keyword engineCount qIns [GoVal.str "Alice"] "query" (by simp)⟩
